import Mathlib

/-!
Verification of the weather subscription bot (src/weatherbot/bot.py,
src/weatherbot/weather.py) against its natural-language specification.

Shallow embedding conventions:
* the sqlite table `subscriptions` is a `List Row`; each store operation is a
  pure function mirroring its SQL statement;
* Python exceptions are modelled with `Except PyErr`; a function that can
  raise returns `Except PyErr α`;
* the weather provider (`WeatherService.get_forecast`) is an external HTTP
  call; it is abstracted as a parameter `svc : String → Except PyErr Payload`
  (a raised transport error, or the parsed JSON payload);
* python-telegram-bot session state (`context.user_data["location"]` plus the
  `ConversationHandler` stage) is a `SessionState` value;
* `datetime.strptime(s, "%Y-%m-%d")` is modelled after CPython's
  `_strptime.py` compiled pattern, with `\d` restricted to ASCII digits.
-/

/-- Python exception classes relevant to the embedded code paths. -/
inductive PyErr
  | keyError
  | indexError
  | requestError
deriving DecidableEq

deriving instance DecidableEq for Except

/-! ### Literal reply texts from bot.py -/

/-- Fallback text returned by `_get_weather_text` when the payload has no
`"list"` key (bot.py line 212). -/
def unavailableText : String := "Не удалось получить прогноз."

/-- Re-prompt sent on a malformed date (bot.py line 137). -/
def badDateText : String := "Неверный формат даты. Попробуйте ещё раз."

/-- Prompt for a date after a location was entered (bot.py line 128). -/
def askDateText : String := "Введите дату в формате ГГГГ-ММ-ДД:"

/-- Reply of the `/cancel` handler (bot.py line 123). -/
def cancelledText : String := "Диалог отменён."

/-- Menu prompt (bot.py line 108). -/
def menuText : String := "Выберите действие:"

/-- Confirmation text after a successful subscription (bot.py line 143). -/
def subscribedText (location dateText forecast : String) : String :=
  "Подписка добавлена. Погода в " ++ location ++ " на " ++ dateText ++ ":\n" ++ forecast

/-- Change-notification text sent by `check_updates` (bot.py line 231). -/
def notifText (location date forecast : String) : String :=
  "Обновлённый прогноз погоды в " ++ location ++ " на " ++ date ++ ":\n" ++ forecast

/-- Deletion confirmation of the `del|` callback branch (bot.py line 199). -/
def delConfirmText (location date : String) : String :=
  "Подписка " ++ location ++ " на " ++ date ++ " удалена."

/-! ### Forecast provider payload and `_get_weather_text` -/

/-- One element of the provider's `"list"` array, reduced to the fields the
bot reads (bot.py lines 213-215). `weather` is `none` when the `"weather"`
key is absent, otherwise the list of entries, each being the entry's
`"description"` value (or `none` when that key is absent). `main` is `none`
when the `"main"` key is absent; `some none` when `"main"` exists but has no
`"temp"`; `some (some t)` carries the rendered temperature numeral `t`
(Python renders the JSON number with `f"...{temp}..."`; we keep the rendered
form). -/
structure Entry where
  weather : Option (List (Option String))
  main : Option (Option String)
deriving DecidableEq

/-- Provider JSON payload as consumed by `_get_weather_text`: only the
`"list"` key is read; `none` models a payload without that key. -/
structure Payload where
  list : Option (List Entry)
deriving DecidableEq

/-- `WeatherBot._get_weather_text`, payload part (bot.py lines 211-216):
`if "list" not in data: return "Не удалось получить прогноз."` then
`item = data["list"][0]`, `description = item["weather"][0]["description"]`,
`temp = item["main"]["temp"]`, `return f"{description}, {temp}°C"`.
Missing keys raise `KeyError`, an empty list raises `IndexError`. -/
def getWeatherText (data : Payload) : Except PyErr String :=
  match data.list with
  | none => .ok unavailableText
  | some items =>
    match items with
    | [] => .error .indexError
    | item :: _ =>
      match item.weather with
      | none => .error .keyError
      | some ws =>
        match ws with
        | [] => .error .indexError
        | w :: _ =>
          match w with
          | none => .error .keyError
          | some description =>
            match item.main with
            | none => .error .keyError
            | some none => .error .keyError
            | some (some temp) => .ok (description ++ ", " ++ temp ++ "°C")

/-- `WeatherBot._get_weather_text` including the provider call
`data = self.weather_service.get_forecast(location)` (bot.py line 210):
a raised transport error propagates. -/
def getWeatherTextOf (svc : String → Except PyErr Payload) (location : String) :
    Except PyErr String :=
  match svc location with
  | .error e => .error e
  | .ok data => getWeatherText data

/-! ### Subscription store (class SubscriptionDB) -/

/-- One row of the sqlite table
`subscriptions(chat_id INTEGER, location TEXT, date TEXT, forecast TEXT,
PRIMARY KEY(chat_id, location, date))` (bot.py lines 38-40). -/
structure Row where
  chat_id : Int
  location : String
  date : String
  forecast : String
deriving DecidableEq

/-- The table contents. -/
abbrev Store := List Row

/-- The `WHERE chat_id=? AND location=? AND date=?` primary-key match. -/
def keyIs (r : Row) (c : Int) (l d : String) : Bool :=
  r.chat_id == c && r.location == l && r.date == d

/-- Primary key of a row. -/
def rowKey (r : Row) : Int × String × String :=
  (r.chat_id, r.location, r.date)

/-- `SubscriptionDB.add_subscription` (bot.py lines 43-48):
`INSERT OR REPLACE INTO subscriptions(...) VALUES (?, ?, ?, ?)`. SQLite
deletes any row conflicting on the primary key and inserts the new row. -/
def add_subscription (db : Store) (c : Int) (l d f : String) : Store :=
  db.filter (fun r => !(keyIs r c l d)) ++ [⟨c, l, d, f⟩]

/-- `SubscriptionDB.get_subscriptions` (bot.py lines 50-53):
`SELECT chat_id, location, date, forecast FROM subscriptions`. -/
def get_subscriptions (db : Store) : List Row := db

/-- `SubscriptionDB.get_chat_subscriptions` (bot.py lines 55-62):
`SELECT location, date, forecast FROM subscriptions WHERE chat_id=?`. -/
def get_chat_subscriptions (db : Store) (c : Int) : List (String × String × String) :=
  (db.filter (fun r => r.chat_id == c)).map (fun r => (r.location, r.date, r.forecast))

/-- `SubscriptionDB.remove_subscription` (bot.py lines 64-69):
`DELETE FROM subscriptions WHERE chat_id=? AND location=? AND date=?`. -/
def remove_subscription (db : Store) (c : Int) (l d : String) : Store :=
  db.filter (fun r => !(keyIs r c l d))

/-- `SubscriptionDB.update_forecast` (bot.py lines 71-76):
`UPDATE subscriptions SET forecast=? WHERE chat_id=? AND location=? AND date=?`. -/
def update_forecast (db : Store) (c : Int) (l d f : String) : Store :=
  db.map (fun r => if keyIs r c l d then { r with forecast := f } else r)

/-- Key uniqueness: no two rows share a primary key. SQLite's
`PRIMARY KEY(chat_id, location, date)` maintains this in every table state. -/
def KeyDistinct (db : Store) : Prop :=
  db.Pairwise (fun a b => rowKey a ≠ rowKey b)

/-- Store states reachable through the store operations, starting from the
empty table created by `_ensure_table`. -/
inductive Reachable : Store → Prop
  | empty : Reachable []
  | add (c : Int) (l d f : String) {db : Store} :
      Reachable db → Reachable (add_subscription db c l d f)
  | remove (c : Int) (l d : String) {db : Store} :
      Reachable db → Reachable (remove_subscription db c l d)
  | update (c : Int) (l d f : String) {db : Store} :
      Reachable db → Reachable (update_forecast db c l d f)

/-! ### `datetime.strptime(date_text, "%Y-%m-%d")` -/

/-- Numeric value of an ASCII digit character. -/
def digitVal (c : Char) : Nat := c.toNat - 48

/-- Gregorian leap-year rule used by `datetime`. -/
def isLeap (y : Nat) : Bool := (y % 4 == 0 && y % 100 != 0) || y % 400 == 0

/-- Length of a month as validated by the `datetime.date` constructor. -/
def daysInMonth (y m : Nat) : Nat :=
  if m = 2 then (if isLeap y then 29 else 28)
  else if m = 4 ∨ m = 6 ∨ m = 9 ∨ m = 11 then 30
  else 31

/-- Value of the four-digit year field. -/
def yearVal (y1 y2 y3 y4 : Char) : Nat :=
  ((digitVal y1 * 10 + digitVal y2) * 10 + digitVal y3) * 10 + digitVal y4

/-- One month/day token of CPython's compiled `strptime` pattern. The format
directive `%m` compiles to the regex `1[0-2]|0[1-9]|[1-9]` and `%d` to
`3[01]|[12]\d|0[1-9]|[1-9]`: a two-digit token whose value lies in `1..hi`
(`hi` = 12 or 31), tried first, else a single digit `1..9`. Returns the
value and the unconsumed characters. -/
def parseTok (hi : Nat) : List Char → Option (Nat × List Char)
  | [] => none
  | [c] =>
    if c.isDigit ∧ 1 ≤ digitVal c ∧ digitVal c ≤ 9 then some (digitVal c, []) else none
  | c1 :: c2 :: rest =>
    if c1.isDigit ∧ c2.isDigit ∧ 1 ≤ 10 * digitVal c1 + digitVal c2
        ∧ 10 * digitVal c1 + digitVal c2 ≤ hi then
      some (10 * digitVal c1 + digitVal c2, rest)
    else if c1.isDigit ∧ 1 ≤ digitVal c1 ∧ digitVal c1 ≤ 9 then
      some (digitVal c1, c2 :: rest)
    else none

/-- `datetime.strptime(s, "%Y-%m-%d").date()` (bot.py line 135). `%Y`
compiles to `\d\d\d\d` (exactly four digits, ASCII-modelled), the literal
dashes must match, the whole string must be consumed (else
"unconverted data remains"), and `datetime` itself requires
`MINYEAR = 1 <= year` and a day that exists in the month. Returns
`some (year, month, day)` on success, `none` when `ValueError` is raised. -/
def strptimeYMD (s : String) : Option (Nat × Nat × Nat) :=
  match s.data with
  | y1 :: y2 :: y3 :: y4 :: '-' :: rest1 =>
    if y1.isDigit ∧ y2.isDigit ∧ y3.isDigit ∧ y4.isDigit then
      match parseTok 12 rest1 with
      | some (m, '-' :: rest2) =>
        match parseTok 31 rest2 with
        | some (d, []) =>
          if 1 ≤ yearVal y1 y2 y3 y4 ∧ d ≤ daysInMonth (yearVal y1 y2 y3 y4) m then
            some (yearVal y1 y2 y3 y4, m, d)
          else none
        | _ => none
      | _ => none
    else none
  | _ => none

/-- Date text acceptance in `date_selected`: `True` iff
`datetime.strptime(date_text, "%Y-%m-%d")` does not raise `ValueError`. -/
def accepted (s : String) : Bool := (strptimeYMD s).isSome

/-- Modelled from the claim's words, for comparison with `accepted`: the
string matches `YYYY-MM-DD` exactly (ten characters, four digits, dash,
two digits, dash, two digits) and the three fields form a real calendar
date. -/
def claimAccepts (s : String) : Bool :=
  match s.data with
  | [y1, y2, y3, y4, h1, m1, m2, h2, d1, d2] =>
    decide (y1.isDigit = true ∧ y2.isDigit = true ∧ y3.isDigit = true ∧ y4.isDigit = true
      ∧ h1 = '-' ∧ h2 = '-' ∧ m1.isDigit = true ∧ m2.isDigit = true
      ∧ d1.isDigit = true ∧ d2.isDigit = true
      ∧ 1 ≤ yearVal y1 y2 y3 y4
      ∧ 1 ≤ 10 * digitVal m1 + digitVal m2 ∧ 10 * digitVal m1 + digitVal m2 ≤ 12
      ∧ 1 ≤ 10 * digitVal d1 + digitVal d2
      ∧ 10 * digitVal d1 + digitVal d2
          ≤ daysInMonth (yearVal y1 y2 y3 y4) (10 * digitVal m1 + digitVal m2))
  | _ => false

/-! ### Conversation handlers -/

/-- `ConversationHandler` stages (bot.py line 25). -/
inductive Stage
  | selectingLocation
  | selectingDate
deriving DecidableEq

/-- What a conversation callback produces for the framework: a next stage,
`ConversationHandler.END`, or an uncaught exception (python-telegram-bot then
leaves the conversation state untouched). -/
inductive Outcome
  | state (s : Stage)
  | ended
  | raised (e : PyErr)
deriving DecidableEq

/-- Per-chat session data: `context.user_data["location"]` (the pending
location, `none` when the key is absent) plus the current conversation
stage (`none` when no dialog is active). -/
structure SessionState where
  pendingLocation : Option String
  stage : Option Stage
deriving DecidableEq

/-- Result of one `date_selected` invocation (bot.py lines 131-155):
replies sent, resulting table, handler outcome, and whether the
`check_updates` job was scheduled. -/
structure DateSelRes where
  replies : List String
  store : Store
  outcome : Outcome
  scheduled : Bool
deriving DecidableEq

/-- `WeatherBot.date_selected` (bot.py lines 131-155). Parse the date text;
on `ValueError` re-prompt and stay in `SELECTING_DATE`. Otherwise call
`_get_weather_text` — with no `try` around it, a raised provider error
propagates out of the handler before any reply or store write. On success,
upsert the row (note: the raw `date_text` is stored), reply with the
confirmation and the menu, schedule the `check_updates` job, and end the
conversation. -/
def date_selected (svc : String → Except PyErr Payload) (db : Store) (chatId : Int)
    (location : String) (dateText : String) : DateSelRes :=
  if (strptimeYMD dateText).isSome then
    match getWeatherTextOf svc location with
    | .error e => ⟨[], db, .raised e, false⟩
    | .ok forecast =>
        ⟨[subscribedText location dateText forecast, menuText],
         add_subscription db chatId location dateText forecast, .ended, true⟩
  else ⟨[badDateText], db, .state .selectingDate, false⟩

/-- `WeatherBot.location_selected` (bot.py lines 126-129):
`context.user_data["location"] = update.message.text`, prompt for a date,
return `SELECTING_DATE`. -/
def location_selected (_st : SessionState) (text : String) : SessionState × List String :=
  ({ pendingLocation := some text, stage := some .selectingDate }, [askDateText])

/-- `WeatherBot.cancel` (bot.py lines 122-124): reply and return
`ConversationHandler.END`. The conversation entry is dropped (stage cleared)
but `context.user_data` is per-user application data and is not touched. -/
def cancel (st : SessionState) : SessionState × List String :=
  ({ st with stage := none }, [cancelledText])

/-- Effect of a `date_selected` outcome on the session: a returned stage
becomes the new conversation state, `END` removes the conversation, and an
uncaught exception leaves the session as it was. `user_data` is never
cleared by the framework. -/
def sessionAfterDateSelected (st : SessionState) (res : DateSelRes) : SessionState :=
  match res.outcome with
  | .state s => { st with stage := some s }
  | .ended => { st with stage := none }
  | .raised _ => st

/-! ### `check_updates` (reconciliation pass) -/

/-- One outbound `bot.send_message(chat_id=..., text=...)` call. -/
structure Notification where
  chatId : Int
  text : String
deriving DecidableEq

/-- Observable result of one `check_updates` run: the table after the pass,
the notifications sent (in order), and the `LOGGER.error` events (the
exceptions caught by the per-subscription `try`). -/
structure CheckResult where
  store : Store
  sent : List Notification
  logs : List PyErr
deriving DecidableEq

/-- Loop body of `WeatherBot.check_updates` (bot.py lines 220-233), iterating
over the snapshot returned by `get_subscriptions()`: fetch errors are logged
and the row is skipped (`continue`); a changed rendering is written back via
`update_forecast` and one message is sent to the row's `chat_id`. -/
def checkUpdatesAux (svc : String → Except PyErr Payload) :
    List Row → Store → CheckResult
  | [], db => ⟨db, [], []⟩
  | r :: rest, db =>
    match getWeatherTextOf svc r.location with
    | .error e =>
      let res := checkUpdatesAux svc rest db
      ⟨res.store, res.sent, e :: res.logs⟩
    | .ok newForecast =>
      if newForecast ≠ r.forecast then
        let db' := update_forecast db r.chat_id r.location r.date newForecast
        let res := checkUpdatesAux svc rest db'
        ⟨res.store, ⟨r.chat_id, notifText r.location r.date newForecast⟩ :: res.sent,
         res.logs⟩
      else checkUpdatesAux svc rest db

/-- `WeatherBot.check_updates` (bot.py lines 218-233): the snapshot is read
once (`for ... in self.db.get_subscriptions():`) and the loop runs over it. -/
def check_updates (svc : String → Except PyErr Payload) (db : Store) : CheckResult :=
  checkUpdatesAux svc (get_subscriptions db) db

/-- Modelled from the spec's words (reconciliation contract), for comparison
with `check_updates`: what one pass does to a single stored row. -/
def reconRowSpec (svc : String → Except PyErr Payload) (r : Row) : Row :=
  match getWeatherTextOf svc r.location with
  | .ok g => if g ≠ r.forecast then { r with forecast := g } else r
  | .error _ => r

/-- Modelled from the spec's words: the notification one pass emits for a
single stored row (`none` when no notification is due). -/
def reconNotifSpec (svc : String → Except PyErr Payload) (r : Row) : Option Notification :=
  match getWeatherTextOf svc r.location with
  | .ok g =>
    if g ≠ r.forecast then some ⟨r.chat_id, notifText r.location r.date g⟩ else none
  | .error _ => none

/-- Modelled from the spec's words: the log entry one pass records for a
single stored row. -/
def reconLogSpec (svc : String → Except PyErr Payload) (r : Row) : Option PyErr :=
  match getWeatherTextOf svc r.location with
  | .ok _ => none
  | .error e => some e

/-! ### Callback payloads of `WeatherBot.button` -/

/-- Payload attached to a delete button:
`callback_data=f"del|{loc}|{date}"` (bot.py line 186). -/
def encodeDel (loc date : String) : String := "del|" ++ loc ++ "|" ++ date

/-- Split a character list at its first `'|'`; `none` when there is none.
Building block for Python's `str.split("|", maxsplit)`. -/
def breakAtPipe : List Char → Option (List Char × List Char)
  | [] => none
  | c :: rest =>
    if c = '|' then some ([], rest)
    else (breakAtPipe rest).map (fun p => (c :: p.1, p.2))

/-- Python's `data.split("|", 2)` (bot.py line 196): at most two splits, at
the first two occurrences of `"|"`; the third piece keeps any further
pipes. -/
def pySplitPipe2 (data : String) : List String :=
  match breakAtPipe data.data with
  | none => [data]
  | some (a, r1) =>
    match breakAtPipe r1 with
    | none => [⟨a⟩, ⟨r1⟩]
    | some (b, r2) => [⟨a⟩, ⟨b⟩, ⟨r2⟩]

/-- The `del|` branch guard and unpacking of `WeatherBot.button` (bot.py
lines 195-196): `data.startswith("del|")`, then
`_, loc, date = data.split("|", 2)`. `none` models the branch not taken or
the 3-tuple unpacking failing. -/
def pyDelParse (data : String) : Option (String × String) :=
  if data.data.take 4 = ['d', 'e', 'l', '|'] then
    match pySplitPipe2 data with
    | [_, loc, date] => some (loc, date)
    | _ => none
  else none

/-- The `del|` branch of `WeatherBot.button` (bot.py lines 195-200): parse
the payload, delete the row, confirm. -/
def buttonDelete (db : Store) (chatId : Int) (data : String) :
    Option (Store × List String) :=
  match pyDelParse data with
  | some (loc, date) =>
    some (remove_subscription db chatId loc date, [delConfirmText loc date])
  | none => none

/-! ### Store lemmas -/

lemma keyIs_iff (r : Row) (c : Int) (l d : String) :
    keyIs r c l d = true ↔ rowKey r = (c, l, d) := by
  simp [keyIs, rowKey, Prod.ext_iff, and_assoc]

lemma keyIs_self (r : Row) : keyIs r r.chat_id r.location r.date = true := by
  simp [keyIs]

lemma filter_not_filter {α : Type} (p : α → Bool) (l : List α) :
    (l.filter (fun a => !p a)).filter p = [] := by
  induction l with
  | nil => rfl
  | cons a t ih =>
    by_cases h : p a = true
    · simp [List.filter_cons, h, ih]
    · simp at h
      simp [List.filter_cons, h, ih]

lemma reachable_keyDistinct {db : Store} (h : Reachable db) : KeyDistinct db := by
  induction h with
  | empty => exact List.Pairwise.nil
  | add c l d f _ ih =>
    unfold add_subscription
    rw [KeyDistinct, List.pairwise_append]
    refine ⟨ih.sublist (List.filter_sublist _), List.pairwise_singleton _ _, ?_⟩
    intro a ha b hb
    rw [List.mem_singleton] at hb
    subst hb
    have hnk := (List.mem_filter.mp ha).2
    rw [Bool.not_eq_true', ← Bool.not_eq_true, keyIs_iff] at hnk
    simpa [rowKey] using hnk
  | remove c l d _ ih =>
    exact ih.sublist (List.filter_sublist _)
  | update c l d f _ ih =>
    unfold update_forecast
    rw [KeyDistinct, List.pairwise_map]
    refine ih.imp ?_
    intro a b hab
    by_cases ha : keyIs a c l d = true <;> by_cases hb : keyIs b c l d = true <;>
      simpa [rowKey, ha, hb] using (by simpa [rowKey] using hab :
        a.chat_id = b.chat_id → a.location = b.location → a.date ≠ b.date ∨ False)

lemma keyDistinct_countP {db : Store} (h : KeyDistinct db) (c : Int) (l d : String) :
    db.countP (fun r => keyIs r c l d) <= 1 := by
  induction db with
  | nil => simp
  | cons a t ih =>
    rw [KeyDistinct, List.pairwise_cons] at h
    rw [List.countP_cons]
    by_cases ha : keyIs a c l d = true
    · have hz : t.countP (fun r => keyIs r c l d) = 0 := by
        rw [List.countP_eq_zero]
        intro r hr hkr
        exact h.1 r hr (((keyIs_iff a c l d).mp ha).trans ((keyIs_iff r c l d).mp hkr).symm)
      simp [hz, ha]
    · rw [Bool.not_eq_true] at ha
      simpa [ha] using ih h.2

lemma filter_key_of_mem {db : Store} (h : KeyDistinct db) {r : Row} (hr : r ∈ db) :
    db.filter (fun q => keyIs q r.chat_id r.location r.date) = [r] := by
  induction db with
  | nil => cases hr
  | cons a t ih =>
    rw [KeyDistinct, List.pairwise_cons] at h
    rcases List.mem_cons.mp hr with rfl | hrt
    · have h0 : List.filter (fun q => keyIs q r.chat_id r.location r.date) t = [] := by
        rw [List.filter_eq_nil_iff]
        intro q hq hkq
        exact h.1 q hq (by rw [(keyIs_iff q _ _ _).mp hkq]; rfl)
      simp [List.filter_cons, keyIs_self r, h0]
    · have hne : keyIs a r.chat_id r.location r.date = false := by
        rw [← Bool.not_eq_true, keyIs_iff]
        intro hk
        exact h.1 r hrt hk
      simpa [List.filter_cons, hne] using ih h.2 hrt

lemma remove_noop (c : Int) (l d : String) :
    ∀ db : Store, (∀ r ∈ db, keyIs r c l d = false) → remove_subscription db c l d = db := by
  intro db
  induction db with
  | nil => intro _; rfl
  | cons a t ih =>
    intro h
    have ha := h a (List.mem_cons_self a t)
    simp only [remove_subscription] at ih ⊢
    simp [List.filter_cons, ha, ih (fun r hr => h r (List.mem_cons_of_mem a hr))]

lemma update_noop (c : Int) (l d f : String) :
    ∀ db : Store, (∀ r ∈ db, keyIs r c l d = false) → update_forecast db c l d f = db := by
  intro db
  induction db with
  | nil => intro _; rfl
  | cons a t ih =>
    intro h
    have ha := h a (List.mem_cons_self a t)
    simp only [update_forecast] at ih ⊢
    simp [ha, ih (fun r hr => h r (List.mem_cons_of_mem a hr))]

/-- C2: in every reachable store state there is at most one row per
(chat_id, location, date) triple; `add_subscription` with an existing key
replaces the prior forecast rather than adding a second row (the rows with
that key after the upsert are exactly the one new row); and
`get_chat_subscriptions` after the upsert returns exactly one entry for the
triple, carrying the latest forecast text. -/
theorem C2_upsert_unique_key (db : Store) (c : Int) (l d f : String) (h : Reachable db) :
    (∀ c0 : Int, ∀ l0 d0 : String, db.countP (fun r => keyIs r c0 l0 d0) ≤ 1)
  ∧ (add_subscription db c l d f).filter (fun r => keyIs r c l d) = [⟨c, l, d, f⟩]
  ∧ (get_chat_subscriptions (add_subscription db c l d f) c).filter
      (fun e => e.1 == l && e.2.1 == d) = [(l, d, f)] := by
  refine ⟨fun c0 l0 d0 => keyDistinct_countP (reachable_keyDistinct h) c0 l0 d0, ?_, ?_⟩
  · unfold add_subscription
    rw [List.filter_append, filter_not_filter]
    simp [keyIs]
  · unfold get_chat_subscriptions add_subscription
    rw [List.filter_append, List.map_append, List.filter_append]
    have h1 : ((((db.filter (fun r => !keyIs r c l d)).filter
        (fun r => r.chat_id == c)).map
        (fun r => (r.location, r.date, r.forecast))).filter
        (fun e => e.1 == l && e.2.1 == d)) = [] := by
      rw [List.filter_eq_nil_iff]
      intro e he
      rcases List.mem_map.mp he with ⟨r, hrmem, rfl⟩
      rcases List.mem_filter.mp hrmem with ⟨hr2, hchat⟩
      have hnk := (List.mem_filter.mp hr2).2
      simp only [keyIs, Bool.not_eq_true', Bool.and_eq_false_iff, beq_eq_false_iff_ne,
        ne_eq] at hnk
      simp only [beq_iff_eq] at hchat
      simp only [Bool.and_eq_true, beq_iff_eq, not_and]
      intro hl hd
      rcases hnk with (hc | hl') | hd'
      · exact absurd hchat hc
      · exact absurd hl hl'
      · exact absurd hd hd'
    rw [h1]
    simp [keyIs]

/-- Witness for C2 at a concrete reachable store. -/
theorem C2_witness :
    (add_subscription [] 1 "Paris" "2030-01-01" "ясно, 10°C").filter
        (fun r => keyIs r 1 "Paris" "2030-01-01")
      = [⟨1, "Paris", "2030-01-01", "ясно, 10°C"⟩] :=
  (C2_upsert_unique_key [] 1 "Paris" "2030-01-01" "ясно, 10°C" Reachable.empty).2.1

/-- C7: `remove_subscription` on a key with no matching row leaves the store
unchanged (the SQL `DELETE` affects zero rows and raises nothing), and
`update_forecast` on an absent key is likewise a silent no-op. -/
theorem C7_absent_key_noop (db : Store) (c : Int) (l d f : String)
    (h : ∀ r ∈ db, keyIs r c l d = false) :
    remove_subscription db c l d = db ∧ update_forecast db c l d f = db :=
  ⟨remove_noop c l d db h, update_noop c l d f db h⟩

/-- Witness for C7: deleting/updating a key absent from a one-row store. -/
theorem C7_witness :
    remove_subscription [⟨1, "Paris", "2030-01-01", "x"⟩] 2 "Paris" "2030-01-01"
        = [⟨1, "Paris", "2030-01-01", "x"⟩]
  ∧ update_forecast [⟨1, "Paris", "2030-01-01", "x"⟩] 2 "Paris" "2030-01-01" "y"
        = [⟨1, "Paris", "2030-01-01", "x"⟩] :=
  C7_absent_key_noop [⟨1, "Paris", "2030-01-01", "x"⟩] 2 "Paris" "2030-01-01" "y"
    (by decide)

/-! ### Reconciliation lemmas -/

/-- Effect of one `check_updates` loop iteration (driven by snapshot row `r`)
on one table row `q`. -/
def stepRow (svc : String → Except PyErr Payload) (r q : Row) : Row :=
  match getWeatherTextOf svc r.location with
  | .ok g =>
    if g ≠ r.forecast then
      (if keyIs q r.chat_id r.location r.date then { q with forecast := g } else q)
    else q
  | .error _ => q

lemma checkAux_sent (svc : String → Except PyErr Payload) (rows : List Row) :
    ∀ db : Store, (checkUpdatesAux svc rows db).sent
      = rows.filterMap (reconNotifSpec svc) := by
  induction rows with
  | nil => intro db; rfl
  | cons r rest ih =>
    intro db
    simp only [checkUpdatesAux, reconNotifSpec, List.filterMap_cons]
    cases hf : getWeatherTextOf svc r.location with
    | error e => simp [hf, ih]
    | ok g =>
      by_cases hg : g = r.forecast
      · simp [hf, hg, ih]
      · simp [hf, hg, ih]

lemma checkAux_logs (svc : String → Except PyErr Payload) (rows : List Row) :
    ∀ db : Store, (checkUpdatesAux svc rows db).logs
      = rows.filterMap (reconLogSpec svc) := by
  induction rows with
  | nil => intro db; rfl
  | cons r rest ih =>
    intro db
    simp only [checkUpdatesAux, reconLogSpec, List.filterMap_cons]
    cases hf : getWeatherTextOf svc r.location with
    | error e => simp [hf, ih]
    | ok g =>
      by_cases hg : g = r.forecast
      · simp [hf, hg, ih]
      · simp [hf, hg, ih]

lemma checkAux_store (svc : String → Except PyErr Payload) (rows : List Row) :
    ∀ db : Store, (checkUpdatesAux svc rows db).store
      = rows.foldl (fun acc r => acc.map (stepRow svc r)) db := by
  induction rows with
  | nil => intro db; rfl
  | cons r rest ih =>
    intro db
    simp only [checkUpdatesAux, List.foldl_cons]
    cases hf : getWeatherTextOf svc r.location with
    | error e =>
      have hid : stepRow svc r = id := funext fun q => by simp [stepRow, hf]
      simp [hf, ih, hid]
    | ok g =>
      by_cases hg : g = r.forecast
      · have hid : stepRow svc r = id := funext fun q => by simp [stepRow, hf, hg]
        simp [hf, hg, ih, hid]
      · have hupd : update_forecast db r.chat_id r.location r.date g
            = db.map (stepRow svc r) := by
          unfold update_forecast
          exact List.map_congr_left fun q _ => by simp [stepRow, hf, hg]
        simp [hf, hg, ih, hupd]

lemma foldl_map_comm (f : Row → Row → Row) :
    ∀ (rows : List Row) (db : List Row),
      rows.foldl (fun acc r => acc.map (f r)) db
        = db.map (fun q => rows.foldl (fun x r => f r x) q) := by
  intro rows
  induction rows with
  | nil => intro db; simp
  | cons r rest ih =>
    intro db
    simp only [List.foldl_cons]
    rw [ih, List.map_map]
    rfl

lemma stepRow_nomatch (svc : String → Except PyErr Payload) (r q : Row)
    (h : rowKey q ≠ rowKey r) : stepRow svc r q = q := by
  have hk : keyIs q r.chat_id r.location r.date = false := by
    rw [← Bool.not_eq_true, keyIs_iff]
    intro hkk
    exact h hkk
  simp only [stepRow]
  cases hf : getWeatherTextOf svc r.location with
  | error e => rfl
  | ok g => by_cases hg : g = r.forecast <;> simp [hg, hk]

lemma stepRow_self (svc : String → Except PyErr Payload) (q : Row) :
    stepRow svc q q = reconRowSpec svc q := by
  simp only [stepRow, reconRowSpec]
  cases hf : getWeatherTextOf svc q.location with
  | error e => rfl
  | ok g => by_cases hg : g = q.forecast <;> simp [hg, keyIs_self]

lemma reconRowSpec_key (svc : String → Except PyErr Payload) (q : Row) :
    rowKey (reconRowSpec svc q) = rowKey q := by
  simp only [reconRowSpec]
  cases hf : getWeatherTextOf svc q.location with
  | error e => rfl
  | ok g => by_cases hg : g = q.forecast <;> simp [hg, rowKey]

lemma foldl_stepRow_nomatch (svc : String → Except PyErr Payload) :
    ∀ (rows : List Row) (x : Row), (∀ r ∈ rows, rowKey r ≠ rowKey x) →
      rows.foldl (fun y r => stepRow svc r y) x = x := by
  intro rows
  induction rows with
  | nil => intro x _; rfl
  | cons r rest ih =>
    intro x h
    simp only [List.foldl_cons]
    rw [stepRow_nomatch svc r x (fun hk => h r (List.mem_cons_self r rest) hk.symm)]
    exact ih x (fun r' hr' => h r' (List.mem_cons_of_mem r hr'))

lemma foldl_stepRow_mem (svc : String → Except PyErr Payload) :
    ∀ rows : List Row, rows.Pairwise (fun a b => rowKey a ≠ rowKey b) →
      ∀ q ∈ rows, rows.foldl (fun y r => stepRow svc r y) q = reconRowSpec svc q := by
  intro rows
  induction rows with
  | nil => intro _ q hq; cases hq
  | cons r rest ih =>
    intro hpw q hq
    rw [List.pairwise_cons] at hpw
    simp only [List.foldl_cons]
    rcases List.mem_cons.mp hq with rfl | hqt
    · rw [stepRow_self]
      apply foldl_stepRow_nomatch
      intro r' hr'
      rw [reconRowSpec_key]
      exact (hpw.1 r' hr').symm
    · rw [stepRow_nomatch svc r q (fun hk => hpw.1 q hqt hk.symm)]
      exact ih hpw.2 q hqt

lemma checkUpdates_store (svc : String → Except PyErr Payload) (db : Store)
    (h : KeyDistinct db) :
    (check_updates svc db).store = db.map (reconRowSpec svc) := by
  rw [check_updates, get_subscriptions, checkAux_store, foldl_map_comm]
  exact List.map_congr_left fun q hq => foldl_stepRow_mem svc db h q hq

lemma checkUpdates_sent (svc : String → Except PyErr Payload) (db : Store) :
    (check_updates svc db).sent = db.filterMap (reconNotifSpec svc) := by
  rw [check_updates, get_subscriptions, checkAux_sent]

lemma checkUpdates_logs (svc : String → Except PyErr Payload) (db : Store) :
    (check_updates svc db).logs = db.filterMap (reconLogSpec svc) := by
  rw [check_updates, get_subscriptions, checkAux_logs]

lemma checkUpdates_row_filter (svc : String → Except PyErr Payload) (db : Store)
    (h : KeyDistinct db) {r : Row} (hr : r ∈ db) :
    (check_updates svc db).store.filter (fun q => keyIs q r.chat_id r.location r.date)
      = [reconRowSpec svc r] := by
  rw [checkUpdates_store svc db h, List.filter_map]
  have hcong : db.filter ((fun q => keyIs q r.chat_id r.location r.date) ∘ reconRowSpec svc)
      = db.filter (fun q => keyIs q r.chat_id r.location r.date) := by
    refine List.filter_congr fun q _ => ?_
    by_cases hk : keyIs q r.chat_id r.location r.date = true
    · have : keyIs (reconRowSpec svc q) r.chat_id r.location r.date = true := by
        rw [keyIs_iff, reconRowSpec_key]
        exact (keyIs_iff q _ _ _).mp hk
      simpa [Function.comp, this] using hk.symm
    · rw [Bool.not_eq_true] at hk
      have : keyIs (reconRowSpec svc q) r.chat_id r.location r.date = false := by
        rw [← Bool.not_eq_true, keyIs_iff, reconRowSpec_key, ← keyIs_iff]
        simp [hk]
      simp [Function.comp, this, hk]
  rw [hcong, filter_key_of_mem h hr]
  rfl

/-- C1: one `check_updates` pass over a store with distinct primary keys (as
SQLite's table guarantees) maps every stored subscription through the
per-row reconciliation contract and emits exactly the per-row notifications:
for a subscription whose re-fetched rendering `g` differs from the stored
text, the stored row becomes the row with forecast `g` and the pass
contributes exactly one notification, addressed to that subscription's
`chat_id`; for a subscription whose re-fetched rendering equals the stored
text, the row is unchanged and no notification is contributed. -/
theorem C1_check_updates_reconciles (svc : String → Except PyErr Payload) (db : Store)
    (hdb : KeyDistinct db) (r : Row) (hr : r ∈ db) (g : String)
    (hok : getWeatherTextOf svc r.location = .ok g) :
    ((check_updates svc db).store = db.map (reconRowSpec svc)
      ∧ (check_updates svc db).sent = db.filterMap (reconNotifSpec svc))
  ∧ (g ≠ r.forecast →
      reconRowSpec svc r = { r with forecast := g }
      ∧ reconNotifSpec svc r = some ⟨r.chat_id, notifText r.location r.date g⟩
      ∧ (check_updates svc db).store.filter
          (fun q => keyIs q r.chat_id r.location r.date) = [{ r with forecast := g }])
  ∧ (g = r.forecast →
      reconRowSpec svc r = r
      ∧ reconNotifSpec svc r = none
      ∧ (check_updates svc db).store.filter
          (fun q => keyIs q r.chat_id r.location r.date) = [r]) := by
  refine ⟨⟨checkUpdates_store svc db hdb, checkUpdates_sent svc db⟩, ?_, ?_⟩
  · intro hg
    have h1 : reconRowSpec svc r = { r with forecast := g } := by
      simp [reconRowSpec, hok, hg]
    refine ⟨h1, by simp [reconNotifSpec, hok, hg], ?_⟩
    rw [checkUpdates_row_filter svc db hdb hr, h1]
  · intro hg
    have h1 : reconRowSpec svc r = r := by simp [reconRowSpec, hok, hg]
    refine ⟨h1, by simp [reconNotifSpec, hok, hg], ?_⟩
    rw [checkUpdates_row_filter svc db hdb hr, h1]

/-- Concrete provider for witnesses: every location renders to
"ясно, 10°C". -/
def svcClear : String → Except PyErr Payload :=
  fun _ => .ok ⟨some [⟨some [some "ясно"], some (some "10")⟩]⟩

/-- Concrete provider for witnesses: the request always raises. -/
def svcDown : String → Except PyErr Payload := fun _ => .error .requestError

/-- Concrete one-row store for witnesses. -/
def rowParis : Row := ⟨1, "Paris", "2030-01-01", "пасмурно, 5°C"⟩

/-- Concrete one-row store for witnesses. -/
def dbParis : Store := [rowParis]

/-- Witness for C1: a changed forecast updates the row and emits the
notifications given by the per-row contract. -/
theorem C1_witness :
    (check_updates svcClear dbParis).store.filter
        (fun q => keyIs q rowParis.chat_id rowParis.location rowParis.date)
      = [{ rowParis with forecast := "ясно, 10°C" }]
  ∧ (check_updates svcClear dbParis).sent = dbParis.filterMap (reconNotifSpec svcClear) := by
  have h := C1_check_updates_reconciles svcClear dbParis (List.pairwise_singleton _ _)
    rowParis (by simp [dbParis]) "ясно, 10°C" (by decide)
  exact ⟨(h.2.1 (by decide)).2.2, h.1.2⟩

/-- C5: during one `check_updates` pass, a subscription whose fetch raises is
skipped: its stored row is unchanged, it contributes no notification, the
exception is logged, while the whole pass still processes every other
subscription according to the per-row reconciliation contract. -/
theorem C5_fetch_failure_skipped (svc : String → Except PyErr Payload) (db : Store)
    (hdb : KeyDistinct db) (r : Row) (hr : r ∈ db) (e : PyErr)
    (he : getWeatherTextOf svc r.location = .error e) :
    (check_updates svc db).store.filter
        (fun q => keyIs q r.chat_id r.location r.date) = [r]
  ∧ reconNotifSpec svc r = none
  ∧ e ∈ (check_updates svc db).logs
  ∧ (check_updates svc db).store = db.map (reconRowSpec svc)
  ∧ (check_updates svc db).sent = db.filterMap (reconNotifSpec svc) := by
  have h1 : reconRowSpec svc r = r := by simp [reconRowSpec, he]
  refine ⟨by rw [checkUpdates_row_filter svc db hdb hr, h1],
    by simp [reconNotifSpec, he], ?_,
    checkUpdates_store svc db hdb, checkUpdates_sent svc db⟩
  rw [checkUpdates_logs]
  exact List.mem_filterMap.mpr ⟨r, hr, by simp [reconLogSpec, he]⟩

/-- Witness for C5: a failing provider leaves the row untouched and the
error is logged. -/
theorem C5_witness :
    PyErr.requestError ∈ (check_updates svcDown dbParis).logs
  ∧ (check_updates svcDown dbParis).store.filter
      (fun q => keyIs q rowParis.chat_id rowParis.location rowParis.date) = [rowParis] := by
  have h := C5_fetch_failure_skipped svcDown dbParis (List.pairwise_singleton _ _)
    rowParis (by simp [dbParis]) .requestError (by decide)
  exact ⟨h.2.2.1, h.1⟩

/-- C6: `_get_weather_text` renders the first forecast entry as
`"<description>, <temperature>°C"`, and returns the fixed fallback string
(rather than failing) exactly when the payload has no `"list"` key. -/
theorem C6_renderer (p : Payload) :
    (p.list = none → getWeatherText p = .ok unavailableText)
  ∧ (∀ (e : Entry) (rest : List Entry) (ws : List (Option String)) (d t : String),
      p.list = some (e :: rest) → e.weather = some (some d :: ws) →
      e.main = some (some t) →
      getWeatherText p = .ok (d ++ ", " ++ t ++ "°C")) := by
  constructor
  · intro h
    simp [getWeatherText, h]
  · intro e rest ws d t hl hw hm
    simp [getWeatherText, hl, hw, hm]

/-- Witness for C6: both renderer branches at concrete payloads. -/
theorem C6_witness :
    getWeatherText ⟨none⟩ = .ok unavailableText
  ∧ getWeatherText ⟨some [⟨some [some "ясно"], some (some "10")⟩]⟩
      = .ok ("ясно" ++ ", " ++ "10" ++ "°C") :=
  ⟨(C6_renderer ⟨none⟩).1 rfl,
   (C6_renderer ⟨some [⟨some [some "ясно"], some (some "10")⟩]⟩).2
     ⟨some [some "ясно"], some (some "10")⟩ [] [] "ясно" "10" rfl rfl rfl⟩

lemma formatted_ne_unavailable (a t : String) :
    a ++ ", " ++ t ++ "°C" ≠ unavailableText := by
  intro h
  have hd := congrArg String.data h
  rw [String.data_append] at hd
  have hlast := congrArg List.getLast? hd
  rw [List.getLast?_append] at hlast
  have hC : ("°C".data.getLast?).or ((a ++ ", " ++ t).data.getLast?) = some 'C' := rfl
  rw [hC] at hlast
  exact absurd hlast (by decide)

/-- C10: `_get_weather_text` is not total on payloads that do contain the
`"list"` key: an empty list raises `IndexError` (`data["list"][0]`), a first
entry without the `"weather"` key raises `KeyError`, and the fallback string
is returned only when the `"list"` key itself is absent. -/
theorem C10_renderer_not_total :
    getWeatherText ⟨some []⟩ = .error .indexError
  ∧ getWeatherText ⟨some [⟨none, none⟩]⟩ = .error .keyError
  ∧ (∀ p : Payload, getWeatherText p = .ok unavailableText → p.list = none) := by
  refine ⟨rfl, rfl, ?_⟩
  intro p h
  rcases p with ⟨_ | l⟩
  · rfl
  · exfalso
    rcases l with _ | ⟨⟨w, m⟩, rest⟩
    · simp [getWeatherText] at h
    · rcases w with _ | (_ | ⟨_ | d0, ws⟩)
      · simp [getWeatherText] at h
      · simp [getWeatherText] at h
      · simp [getWeatherText] at h
      · rcases m with _ | (_ | t0)
        · simp [getWeatherText] at h
        · simp [getWeatherText] at h
        · simp only [getWeatherText, Except.ok.injEq] at h
          exact formatted_ne_unavailable d0 t0 h

/-- Witness for C10: the fallback implies the `"list"` key is absent, at a
concrete payload. -/
theorem C10_witness : (⟨none⟩ : Payload).list = none :=
  C10_renderer_not_total.2.2 ⟨none⟩ rfl

/-- C4 (claim vs code): when the provider raises during finalization,
`date_selected` has no `try` around `_get_weather_text`, so the exception
propagates out of the handler. No row is written — that part of the claim
holds — but no user-visible failure message is sent and the dialog does not
return to `IDLE`: python-telegram-bot leaves the conversation in
`SELECTING_DATE`. Evaluated at the failing input (chat 1, location "Paris",
date text "2030-01-01", provider raising a request error). -/
theorem C4_fetch_failure_propagates :
    date_selected svcDown [] 1 "Paris" "2030-01-01"
      = ⟨[], [], .raised .requestError, false⟩
  ∧ sessionAfterDateSelected ⟨some "Paris", some .selectingDate⟩
      (date_selected svcDown [] 1 "Paris" "2030-01-01")
      = ⟨some "Paris", some .selectingDate⟩ := by
  decide

/-- C8 (refuting the claim as stated): cancelling an active dialog discards
the conversation stage but does not clear `pending_location` —
`context.user_data["location"]` survives `cancel`. -/
theorem C8_counterexample :
    (cancel ⟨some "Paris", some .selectingDate⟩).1.pendingLocation = some "Paris"
  ∧ (cancel ⟨some "Paris", some .selectingDate⟩).1.stage = none := by
  decide

/-- C8 (amended): handling a location message sets `pending_location`;
completion of finalization and explicit cancellation both end the dialog
(the conversation stage is discarded) but neither clears
`pending_location`, which persists in the per-user data until
overwritten. -/
theorem C8_amended (st : SessionState) (text : String)
    (svc : String → Except PyErr Payload) (db : Store) (chatId : Int)
    (loc dateText fc : String)
    (hA : accepted dateText = true) (hf : getWeatherTextOf svc loc = .ok fc) :
    (location_selected st text).1.pendingLocation = some text
  ∧ (location_selected st text).1.stage = some .selectingDate
  ∧ (cancel st).1.stage = none
  ∧ (cancel st).1.pendingLocation = st.pendingLocation
  ∧ (date_selected svc db chatId loc dateText).outcome = .ended
  ∧ (sessionAfterDateSelected st (date_selected svc db chatId loc dateText)).stage = none
  ∧ (sessionAfterDateSelected st
      (date_selected svc db chatId loc dateText)).pendingLocation
      = st.pendingLocation := by
  have hA' : (strptimeYMD dateText).isSome = true := hA
  have hd : date_selected svc db chatId loc dateText
      = ⟨[subscribedText loc dateText fc, menuText],
         add_subscription db chatId loc dateText fc, .ended, true⟩ := by
    unfold date_selected
    rw [if_pos hA', hf]
  refine ⟨rfl, rfl, rfl, rfl, by rw [hd], by rw [hd]; rfl, by rw [hd]; rfl⟩

/-- Witness for C8 at a concrete session and a successful finalization. -/
theorem C8_witness :
    (sessionAfterDateSelected ⟨some "Paris", some .selectingDate⟩
        (date_selected svcClear [] 1 "Paris" "2030-01-01")).pendingLocation
      = some "Paris"
  ∧ (cancel ⟨some "Paris", some .selectingDate⟩).1.pendingLocation = some "Paris" := by
  have h := C8_amended ⟨some "Paris", some .selectingDate⟩ "Rome" svcClear [] 1 "Paris"
    "2030-01-01" "ясно, 10°C" (by decide) (by decide)
  exact ⟨h.2.2.2.2.2.2, h.2.2.2.1⟩

/-! ### Callback payload lemmas -/

lemma breakAtPipe_yes : ∀ l : List Char, '|' ∉ l →
    ∀ r : List Char, breakAtPipe (l ++ '|' :: r) = some (l, r) := by
  intro l
  induction l with
  | nil => intro _ r; simp [breakAtPipe]
  | cons c t ih =>
    intro h r
    have hc : ¬ c = '|' := fun hc => h (hc ▸ List.mem_cons_self c t)
    have ht := ih (fun hm => h (List.mem_cons_of_mem c hm)) r
    simp only [List.cons_append, breakAtPipe, if_neg hc, List.append_eq, ht]
    rfl

lemma firstPipeSplit : ∀ cs : List Char, '|' ∈ cs →
    ∃ a b, cs = a ++ '|' :: b ∧ '|' ∉ a := by
  intro cs
  induction cs with
  | nil => intro h; cases h
  | cons c t ih =>
    intro h
    by_cases hc : c = '|'
    · exact ⟨[], t, by rw [hc]; rfl, by simp⟩
    · have ht : '|' ∈ t := by
        rcases List.mem_cons.mp h with h1 | h1
        · exact absurd h1.symm hc
        · exact h1
      rcases ih ht with ⟨a, b, hab, hna⟩
      refine ⟨c :: a, b, by rw [hab]; rfl, ?_⟩
      intro hm
      rcases List.mem_cons.mp hm with h2 | h2
      · exact hc h2.symm
      · exact hna h2

lemma encodeDel_data (loc date : String) :
    (encodeDel loc date).data
      = 'd' :: 'e' :: 'l' :: '|' :: (loc.data ++ '|' :: date.data) := by
  simp [encodeDel, String.data_append]

/-- C9: the delete-button payload `"del|" + loc + "|" + date` parsed back by
`data.split("|", 2)` recovers exactly the original (location, date) pair iff
the location contains no `'|'`; in that case the `del|` callback branch
deletes exactly the selected (chat_id, location, date) row. -/
theorem C9_del_roundtrip (loc date : String) :
    (pyDelParse (encodeDel loc date) = some (loc, date) ↔ '|' ∉ loc.data)
  ∧ ('|' ∉ loc.data → ∀ (db : Store) (chatId : Int),
      buttonDelete db chatId (encodeDel loc date)
        = some (remove_subscription db chatId loc date, [delConfirmText loc date])) := by
  have hdata := encodeDel_data loc date
  have htake : (encodeDel loc date).data.take 4 = ['d', 'e', 'l', '|'] := by
    rw [hdata]; rfl
  have hbp1 : breakAtPipe (encodeDel loc date).data
      = some (['d', 'e', 'l'], loc.data ++ '|' :: date.data) := by
    rw [hdata]
    exact breakAtPipe_yes ['d', 'e', 'l'] (by decide) (loc.data ++ '|' :: date.data)
  have hyes : '|' ∉ loc.data → pyDelParse (encodeDel loc date) = some (loc, date) := by
    intro hp
    have hbp2 := breakAtPipe_yes loc.data hp date.data
    simp [pyDelParse, htake, pySplitPipe2, hbp1, hbp2]
  have hno : '|' ∈ loc.data → pyDelParse (encodeDel loc date) ≠ some (loc, date) := by
    intro hp
    rcases firstPipeSplit loc.data hp with ⟨a, b, hab, hna⟩
    have hbp2 : breakAtPipe (loc.data ++ '|' :: date.data)
        = some (a, b ++ '|' :: date.data) := by
      rw [hab, List.append_assoc, List.cons_append]
      exact breakAtPipe_yes a hna (b ++ '|' :: date.data)
    have hparse : pyDelParse (encodeDel loc date)
        = some (⟨a⟩, ⟨b ++ '|' :: date.data⟩) := by
      simp [pyDelParse, htake, pySplitPipe2, hbp1, hbp2]
    rw [hparse]
    intro hcontra
    have hpair := Option.some.inj hcontra
    have hfst : (⟨a⟩ : String) = loc := congrArg Prod.fst hpair
    have ha' : loc.data = a := by rw [← hfst]
    rw [ha'] at hp
    exact hna hp
  constructor
  · constructor
    · intro h
      by_cases hp : '|' ∈ loc.data
      · exact absurd h (hno hp)
      · exact hp
    · exact hyes
  · intro hp db chatId
    simp [buttonDelete, hyes hp]

/-- Witness for C9 at a pipe-free location. -/
theorem C9_witness :
    pyDelParse (encodeDel "Paris" "2030-01-01") = some ("Paris", "2030-01-01")
  ∧ buttonDelete [] 1 (encodeDel "Paris" "2030-01-01")
      = some ([], [delConfirmText "Paris" "2030-01-01"]) := by
  refine ⟨(C9_del_roundtrip "Paris" "2030-01-01").1.mpr (by decide), ?_⟩
  have h := (C9_del_roundtrip "Paris" "2030-01-01").2 (by decide) [] 1
  simpa [remove_subscription] using h

/-! ### Date parsing lemmas -/

lemma daysInMonth_le_31 (y m : Nat) : daysInMonth y m ≤ 31 := by
  unfold daysInMonth
  split
  · split <;> omega
  · split <;> omega

lemma parseTok_sound (hi : Nat) (h9 : 9 ≤ hi) :
    ∀ (cs : List Char) (v : Nat) (rest : List Char),
      parseTok hi cs = some (v, rest) → 1 ≤ v ∧ v ≤ hi := by
  intro cs v rest h
  match cs with
  | [] => exact absurd h (by simp [parseTok])
  | [c] =>
    simp only [parseTok] at h
    split at h
    · rename_i hcond
      simp only [Option.some.injEq, Prod.mk.injEq] at h
      obtain ⟨_, h1, h2⟩ := hcond
      omega
    · exact absurd h (by simp)
  | c1 :: c2 :: rest' =>
    simp only [parseTok] at h
    split at h
    · rename_i hcond
      simp only [Option.some.injEq, Prod.mk.injEq] at h
      obtain ⟨_, _, h1, h2⟩ := hcond
      omega
    · split at h
      · rename_i hcond2
        simp only [Option.some.injEq, Prod.mk.injEq] at h
        obtain ⟨_, h1, h2⟩ := hcond2
        omega
      · exact absurd h (by simp)

lemma strptimeYMD_sound (s : String) (y m d : Nat)
    (h : strptimeYMD s = some (y, m, d)) :
    1 ≤ y ∧ 1 ≤ m ∧ m ≤ 12 ∧ 1 ≤ d ∧ d ≤ daysInMonth y m := by
  unfold strptimeYMD at h
  split at h
  · rename_i y1 y2 y3 y4 rest1 heqs
    split at h
    · split at h
      · rename_i mm rest2 heq1
        split at h
        · rename_i dd heq2
          split at h
          · rename_i hval
            simp only [Option.some.injEq, Prod.mk.injEq] at h
            obtain ⟨hy, hm, hd⟩ := h
            subst hy; subst hm; subst hd
            have hmb := parseTok_sound 12 (by omega) rest1 mm _ heq1
            have hdb := parseTok_sound 31 (by omega) rest2 dd [] heq2
            exact ⟨hval.1, hmb.1, hmb.2, hdb.1, hval.2⟩
          · exact absurd h (by simp)
        · exact absurd h (by simp)
      · exact absurd h (by simp)
    · exact absurd h (by simp)
  · exact absurd h (by simp)

lemma claimAccepts_accepted (s : String) (h : claimAccepts s = true) :
    accepted s = true := by
  unfold claimAccepts at h
  split at h
  · rename_i y1 y2 y3 y4 h1 m1 m2 h2 d1 d2 heqs
    rw [decide_eq_true_iff] at h
    obtain ⟨hy1, hy2, hy3, hy4, hh1, hh2, hm1, hm2, hd1, hd2, hgy, hgm1, hgm2,
      hgd1, hgd2⟩ := h
    subst hh1; subst hh2
    have h31 : 10 * digitVal d1 + digitVal d2 ≤ 31 :=
      le_trans hgd2 (daysInMonth_le_31 _ _)
    unfold accepted strptimeYMD
    rw [heqs]
    simp [parseTok, hy1, hy2, hy3, hy4, hm1, hm2, hd1, hd2, hgy, hgm1, hgm2, hgd1,
      hgd2, h31]
  · exact absurd h (by simp)

/-- C3 (refuting the claim as stated): acceptance is not equivalent to
matching `YYYY-MM-DD` exactly — `"2024-2-9"` is accepted by
`datetime.strptime(..., "%Y-%m-%d")` although it does not match the
ten-character `YYYY-MM-DD` shape. -/
theorem C3_counterexample :
    accepted "2024-2-9" = true ∧ claimAccepts "2024-2-9" = false := by
  decide

/-- C3 (amended): every string matching `YYYY-MM-DD` exactly that denotes a
real calendar date is accepted, and every accepted string parses into a real
calendar date; but acceptance is strictly more lenient than the exact
format: the `%m`/`%d` directives also take single digits, so `"2024-2-9"`
is accepted; `"2024-02-30"` is rejected and `"2024-02-29"` accepted; a
rejected string makes `date_selected` re-prompt and stay in
`SELECTING_DATE` with the store unchanged. -/
theorem C3_amended (s : String) :
    (claimAccepts s = true → accepted s = true)
  ∧ (∀ y m d : Nat, strptimeYMD s = some (y, m, d) →
      1 ≤ y ∧ 1 ≤ m ∧ m ≤ 12 ∧ 1 ≤ d ∧ d ≤ daysInMonth y m)
  ∧ accepted "2024-2-9" = true
  ∧ accepted "2024-02-30" = false
  ∧ accepted "2024-02-29" = true
  ∧ (accepted s = false → ∀ (svc : String → Except PyErr Payload) (db : Store)
      (chatId : Int) (loc : String),
      date_selected svc db chatId loc s
        = ⟨[badDateText], db, .state .selectingDate, false⟩) := by
  refine ⟨claimAccepts_accepted s, fun y m d h => strptimeYMD_sound s y m d h,
    by decide, by decide, by decide, ?_⟩
  intro h svc db chatId loc
  unfold date_selected
  rw [accepted] at h
  rw [if_neg (by simp [h])]

/-- Witness for C3 at concrete date strings. -/
theorem C3_witness :
    accepted "2024-02-29" = true
  ∧ date_selected svcDown [] 1 "Paris" "2024-02-30"
      = ⟨[badDateText], [], .state .selectingDate, false⟩ := by
  refine ⟨(C3_amended "2024-02-29").1 (by decide), ?_⟩
  exact (C3_amended "2024-02-30").2.2.2.2.2 (by decide) svcDown [] 1 "Paris"
